import Mathlib

/-! Shallow embedding of `src/llava/serve/batchcli.py` (the LLaVA batch
inference driver) and proofs about it.  External collaborators that live
outside this file — the pretrained-model loader, the tokenizer, the
conversation templates, the generation call, the filesystem and the
network — are modelled as fields of an `Env` record: fixed strings and
pure rendering functions for the deterministic ones, and per-loop-index
oracle functions giving the outcome (success value or raised exception
message) of each fallible external call. -/

/-! ## String primitives

Kernel-reducible models of the Python string methods the script uses:
`.lower()`, `.strip()` and the substring operator `in`. -/

/-- Python's `str.lower()`. -/
def strToLower (s : String) : String := String.mk (s.toList.map Char.toLower)

/-- Python's `str.strip()`: drop whitespace from both ends. -/
def strTrim (s : String) : String :=
  String.mk (((s.toList.dropWhile Char.isWhitespace).reverse.dropWhile
    Char.isWhitespace).reverse)

/-- Whether `needle` occurs as a contiguous sublist of the second list. -/
def listIsInfixOf (needle : List Char) : List Char → Bool
  | [] => needle.isEmpty
  | c :: rest => List.isPrefixOf needle (c :: rest) || listIsInfixOf needle rest

/-- Python's substring operator `needle in hay`. -/
def strContains (needle hay : String) : Bool :=
  listIsInfixOf needle.toList hay.toList

deriving instance DecidableEq for Except

/-! ## The CSV log (`write_to_csv`, batchcli.py lines 28-34) -/

/-- One row produced by a `csv.writer.writerow` call inside `write_to_csv`,
tagged by which of the two `writerow` call sites emitted it: the header
row (line 33) or a five-field data row (line 34). -/
inductive CsvRow where
  | header
  | data (model_path model_base image_file prompt response : String)
deriving DecidableEq

/-- The state of `output.csv`: whether `os.path.isfile` reports it present,
and the rows appended so far (the file is only ever opened in append
mode). -/
structure CsvFile where
  isFile : Bool
  rows : List CsvRow
deriving DecidableEq

/-- The textual fields of a row: the fixed five-column header of line 33,
or the five data fields of line 34. -/
def rowFields : CsvRow → List String
  | CsvRow.header => ["Model Path", "Model Base", "Image File URL", "Prompt", "Response"]
  | CsvRow.data mp mb fi p resp => [mp, mb, fi, p, resp]

/-- `write_to_csv` (batchcli.py lines 28-34): check `os.path.isfile`, open
`output.csv` in append mode (which creates it, hence `isFile := true`
afterwards), write the header row when the file did not exist, then write
the data row.  (`model_base or ""` on a string argument is the identity,
since the only falsy string is `""` itself.) -/
def write_to_csv (model_path model_base image_file prompt response : String)
    (f : CsvFile) : CsvFile :=
  let file_exists := f.isFile
  let rows1 := if file_exists then f.rows else f.rows ++ [CsvRow.header]
  { isFile := true,
    rows := rows1 ++ [CsvRow.data model_path model_base image_file prompt response] }

/-- Number of header rows in the file. -/
def headerCount (f : CsvFile) : Nat :=
  f.rows.countP (fun r => match r with | CsvRow.header => true | _ => false)

/-- A data row as a five-tuple (model path, model base, image file, prompt,
response). -/
abbrev DataRow := String × String × String × String × String

/-- The `Prompt` column of a data row. -/
def promptField (r : DataRow) : String := r.2.2.2.1

/-- The data rows of the file, in order, header rows dropped. -/
def dataRowsOf (f : CsvFile) : List DataRow :=
  f.rows.filterMap (fun r => match r with
    | CsvRow.header => none
    | CsvRow.data mp mb fi p resp => some (mp, mb, fi, p, resp))

/-- Number of data rows (appended `ResultRecord`s) in the file. -/
def dataCount (f : CsvFile) : Nat := (dataRowsOf f).length

/-- The arguments of one `write_to_csv` call. -/
structure CsvCall where
  model_path : String
  model_base : String
  image_file : String
  prompt : String
  response : String
deriving DecidableEq

/-- A sequence of `write_to_csv` calls applied in order (possibly spanning
several runs of the driver: the file state persists between runs). -/
def writeAll : List CsvCall → CsvFile → CsvFile
  | [], f => f
  | c :: cs, f =>
      writeAll cs (write_to_csv c.model_path c.model_base c.image_file c.prompt c.response f)

/-! ## Conversation-mode selection (batchcli.py lines 43-59) -/

/-- The `if/elif` chain of batchcli.py lines 43-54: ordered substring tests
on the lower-cased model name, first match wins, defaulting to
`"llava_v0"`. -/
def inferConvMode (model_name : String) : String :=
  if strContains "llama-2" (strToLower model_name) then "llava_llama_2"
  else if strContains "mistral" (strToLower model_name) then "mistral_instruct"
  else if strContains "v1.6-34b" (strToLower model_name) then "chatml_direct"
  else if strContains "v1" (strToLower model_name) then "llava_v1"
  else if strContains "mpt" (strToLower model_name) then "mpt"
  else "llava_v0"

/-- The fixed priority list of (family marker, conversation mode) pairs, in
the order the code checks them. -/
def convModePriorityList : List (String × String) :=
  [("llama-2", "llava_llama_2"), ("mistral", "mistral_instruct"),
   ("v1.6-34b", "chatml_direct"), ("v1", "llava_v1"), ("mpt", "mpt")]

/-- Spec-style reformulation of the selection rule ("ordered substring
matching against a fixed priority list; first match wins; default to a
baseline mode if none match"), to be proved equal to `inferConvMode`. -/
def inferConvModeSpec (model_name : String) : String :=
  match convModePriorityList.find? (fun p => strContains p.1 (strToLower model_name)) with
  | some p => p.2
  | none => "llava_v0"

/-- The warning printed at batchcli.py line 57. -/
def warningLine (inferred given : String) : String :=
  "[WARNING] the auto inferred conversation mode is " ++ inferred ++
    ", while --conv-mode is " ++ given ++ ", using " ++ given

/-- Lines 56-59: resolve the effective conversation mode from the inferred
one and the optional `--conv-mode` override; returns the mode used for the
rest of the run together with the warning line printed, if any.  When an
override is supplied it is always the value used; the warning is printed
exactly when it differs from the inferred mode. -/
def resolveConvMode (conv_mode : String) (override : Option String) : String × Option String :=
  match override with
  | some o => if conv_mode ≠ o then (o, some (warningLine conv_mode o)) else (conv_mode, none)
  | none => (conv_mode, none)

/-! ## The run model -/

/-- Outcome of the `model.generate` + `tokenizer.decode` step for one
(image, prompt) pair: the decoded text, or the message of the exception it
raised. -/
inductive GenOutcome where
  | success (decoded : String)
  | raises (msg : String)
deriving DecidableEq

/-- The sampling-relevant arguments of one `model.generate` call
(batchcli.py lines 98-106). -/
structure GenCall where
  prompt_text : String
  do_sample : Bool
  temperature : Rat
  max_new_tokens : Nat
deriving DecidableEq

/-- The parsed command-line arguments used by the loop (lines 120-133). -/
structure Args where
  model_path : String
  model_base : Option String
  conv_mode : Option String
  temperature : Rat
  max_new_tokens : Nat
  debug : Bool
deriving DecidableEq

/-- The external world of one run.  The token constants and template
capabilities come from modules outside this file (`llava.constants`,
`llava.conversation`); the oracle fields give, per loop index, the outcome
of each fallible external call:
* `loadResult i` — `load_image` / `process_images` / tensor transfer for
  the `i`-th image (lines 68-75): `none` on success, `some e` when it
  raises `e`;
* `encodeResult i j` — `tokenizer_image_token` for pair (i, j) (line 92,
  outside the `try` block);
* `genResult i j` — `model.generate` + `tokenizer.decode` (lines 98-108);
* `writeResult i j` — the `write_to_csv` call (line 113): `some e` models
  the open/write raising before anything is appended;
* `debugResult i j` — the debug print (line 116). -/
structure Env where
  default_image_token : String
  default_im_start_token : String
  default_im_end_token : String
  mm_use_im_start_end : Bool
  get_model_name_from_path : String → String
  roles : String → String × String
  render : String → String → String
  loadResult : Nat → Option String
  encodeResult : Nat → Nat → Option String
  genResult : Nat → Nat → GenOutcome
  writeResult : Nat → Nat → Option String
  debugResult : Nat → Nat → Option String

/-- Observable state of a run: the CSV file, the lines printed to standard
output, and the trace of `model.generate` calls issued. -/
structure RunState where
  csv : CsvFile
  stdout : List String
  genCalls : List GenCall
deriving DecidableEq

/-- A run aborted by an uncaught exception: the state at the moment of the
raise, and the exception message. -/
structure Aborted where
  state : RunState
  msg : String
deriving DecidableEq

/-- Lines 82-86: prepend the image-placeholder tokens to the raw prompt
(`image` is never `None` here: `load_image` either returns an image or
raises). -/
def promptWithImageTokens (env : Env) (prompt : String) : String :=
  if env.mm_use_im_start_end then
    env.default_im_start_token ++ env.default_image_token ++
      env.default_im_end_token ++ "\n" ++ prompt
  else
    env.default_image_token ++ "\n" ++ prompt

/-- The error line printed by the `except` handler (line 118). -/
def errLine (image_file prompt e : String) : String :=
  "Error processing image " ++ image_file ++ " with prompt " ++ prompt ++ ": " ++ e

/-- The `roles[1]: outputs` line printed at line 110. -/
def assistLine (role outputs : String) : String := role ++ ": " ++ outputs

/-- The debug dump printed at line 116. -/
def debugLine (prompt_text outputs : String) : String :=
  "debug prompt=" ++ prompt_text ++ " outputs=" ++ outputs

/-- The sampling-relevant arguments passed to `model.generate` at lines
98-106: the rendered prompt, `do_sample=True if args.temperature > 0 else
False`, the temperature and the max-new-tokens bound. -/
def genCallOf (env : Env) (args : Args) (cm raw : String) : GenCall :=
  ⟨env.render cm (promptWithImageTokens env raw),
   if args.temperature > 0 then true else false,
   args.temperature, args.max_new_tokens⟩

/-- The body of the inner prompt loop for pair (i, j) (lines 77-118):
placeholder prefixing, conversation rendering, tokenization (outside the
`try`: a raise there aborts the run), then the `try` block — generate,
decode, print, CSV append, optional debug print — whose exceptions are all
caught by the handler of line 117. -/
def processPair (env : Env) (args : Args) (cm : String) (i j : Nat)
    (image_file raw : String) (st : RunState) : Except Aborted RunState :=
  let prompt := promptWithImageTokens env raw
  let prompt_text := env.render cm prompt
  match env.encodeResult i j with
  | some e => Except.error ⟨st, e⟩
  | none =>
    let st1 : RunState :=
      { st with genCalls := st.genCalls ++ [genCallOf env args cm raw] }
    match env.genResult i j with
    | GenOutcome.raises e =>
        Except.ok { st1 with stdout := st1.stdout ++ [errLine image_file prompt e] }
    | GenOutcome.success decoded =>
      let outputs := strTrim decoded
      let st2 : RunState :=
        { st1 with stdout := st1.stdout ++ [assistLine (env.roles cm).2 outputs] }
      match env.writeResult i j with
      | some e =>
          Except.ok { st2 with stdout := st2.stdout ++ [errLine image_file prompt e] }
      | none =>
        let newCsv := write_to_csv args.model_path (args.model_base.getD "")
          image_file prompt outputs st2.csv
        let st3 : RunState := { st2 with csv := newCsv }
        if args.debug then
          match env.debugResult i j with
          | some e =>
              Except.ok { st3 with stdout := st3.stdout ++ [errLine image_file prompt e] }
          | none =>
              Except.ok { st3 with stdout := st3.stdout ++ [debugLine prompt_text outputs] }
        else Except.ok st3

/-- The inner `for prompt in prompts` loop (lines 77-118), prompts indexed
from `j`. -/
def processPrompts (env : Env) (args : Args) (cm : String) (i : Nat) (image_file : String) :
    List String → Nat → RunState → Except Aborted RunState
  | [], _, st => Except.ok st
  | raw :: rest, j, st =>
    match processPair env args cm i j image_file raw st with
    | Except.error a => Except.error a
    | Except.ok st' => processPrompts env args cm i image_file rest (j + 1) st'

/-- The outer `for image_file in file` loop (lines 66-118), images indexed
from `i`: strip the line, acquire and preprocess the image (a raise here
is uncaught and aborts the run), then run the prompt loop. -/
def processImages (env : Env) (args : Args) (cm : String) (ps : List String) :
    List String → Nat → RunState → Except Aborted RunState
  | [], _, st => Except.ok st
  | f :: rest, i, st =>
    let image_file := strTrim f
    match env.loadResult i with
    | some e => Except.error ⟨st, e⟩
    | none =>
      match processPrompts env args cm i image_file ps 0 st with
      | Except.error a => Except.error a
      | Except.ok st' => processImages env args cm ps rest (i + 1) st'

/-- `main` (lines 36-118), given the lines of the prompt file and of the
image list file and the initial state of `output.csv`: infer the
conversation mode from the model name, resolve it against the optional
override (printing the warning if any), strip each prompt line, then run
the nested loops. -/
def runMain (env : Env) (args : Args) (image_lines prompt_lines : List String)
    (csv0 : CsvFile) : Except Aborted RunState :=
  let model_name := env.get_model_name_from_path args.model_path
  let r := resolveConvMode (inferConvMode model_name) args.conv_mode
  let warnOut : List String := match r.2 with | some w => [w] | none => []
  let prompts := prompt_lines.map strTrim
  let st0 : RunState := { csv := csv0, stdout := warnOut, genCalls := [] }
  processImages env args r.1 prompts image_lines 0 st0

/-- The run state carried by a result, whether the run completed or
aborted. -/
def resultState : Except Aborted RunState → RunState
  | Except.ok st => st
  | Except.error a => a.state

/-- Projection: `some (state, msg)` when the run aborted, `none` when it
completed. -/
def runAborts : Except Aborted RunState → Option (RunState × String)
  | Except.error a => some (a.state, a.msg)
  | Except.ok _ => none

/-! ## Counting pair outcomes -/

/-- Pair (i, j) fails to append its row: the generate/decode step raises,
or it succeeds and the CSV append raises. -/
def pairFails (env : Env) (i j : Nat) : Bool :=
  match env.genResult i j with
  | GenOutcome.raises _ => true
  | GenOutcome.success _ => (env.writeResult i j).isSome

/-- Pair (i, j)'s generate/decode step itself raises. -/
def genFails (env : Env) (i j : Nat) : Bool :=
  match env.genResult i j with
  | GenOutcome.raises _ => true
  | GenOutcome.success _ => false

/-- Number of failing pairs among `(i, j), (i, j+1), …` for `n` prompts. -/
def failCountP (env : Env) (i : Nat) : Nat → Nat → Nat
  | _, 0 => 0
  | j, n + 1 => (if pairFails env i j then 1 else 0) + failCountP env i (j + 1) n

/-- Number of failing pairs over `m` images starting at image `i`, each
with `n` prompts. -/
def failCountAll (env : Env) : Nat → Nat → Nat → Nat
  | _, _, 0 => 0
  | i, n, m + 1 => failCountP env i 0 n + failCountAll env (i + 1) n m

/-- Number of pairs whose generate/decode step raises, among
`(i, j), (i, j+1), …` for `n` prompts. -/
def genFailCountP (env : Env) (i : Nat) : Nat → Nat → Nat
  | _, 0 => 0
  | j, n + 1 => (if genFails env i j then 1 else 0) + genFailCountP env i (j + 1) n

/-- Number of pairs whose generate/decode step raises, over `m` images
each with `n` prompts. -/
def genFailCountAll (env : Env) : Nat → Nat → Nat → Nat
  | _, _, 0 => 0
  | i, n, m + 1 => genFailCountP env i 0 n + genFailCountAll env (i + 1) n m

/-- The data rows pair (i, j) appends: exactly one when generate/decode
succeeds and the append succeeds, none otherwise. -/
def pairRows (env : Env) (args : Args) (i j : Nat) (image_file raw : String) : List DataRow :=
  match env.genResult i j, env.writeResult i j with
  | GenOutcome.success decoded, none =>
      [(args.model_path, args.model_base.getD "", image_file,
        promptWithImageTokens env raw, strTrim decoded)]
  | _, _ => []

/-- The data rows appended while processing prompts `ps` (indexed from `j`)
for image `i`. -/
def promptRows (env : Env) (args : Args) (i : Nat) (image_file : String) :
    List String → Nat → List DataRow
  | [], _ => []
  | raw :: rest, j => pairRows env args i j image_file raw ++
      promptRows env args i image_file rest (j + 1)

/-- The data rows appended while processing images `files` (indexed from
`i`), each against prompt list `ps`. -/
def imageRows (env : Env) (args : Args) (ps : List String) :
    List String → Nat → List DataRow
  | [], _ => []
  | f :: rest, i => promptRows env args i (strTrim f) ps 0 ++
      imageRows env args ps rest (i + 1)

/-! ## Concrete instances for witnesses and counterexamples -/

/-- An `output.csv` that does not exist yet. -/
def csvEmpty : CsvFile := { isFile := false, rows := [] }

/-- An environment in which every external call succeeds. -/
def envAllOk : Env :=
  { default_image_token := "<image>"
    default_im_start_token := "<im_start>"
    default_im_end_token := "<im_end>"
    mm_use_im_start_end := false
    get_model_name_from_path := fun p => p
    roles := fun _ => ("USER", "ASSISTANT")
    render := fun _ p => p
    loadResult := fun _ => none
    encodeResult := fun _ _ => none
    genResult := fun _ _ => GenOutcome.success "ok"
    writeResult := fun _ _ => none
    debugResult := fun _ _ => none }

/-- Default arguments: temperature 0, no override, no debug. -/
def argsBase : Args :=
  { model_path := "mp", model_base := none, conv_mode := none,
    temperature := 0, max_new_tokens := 512, debug := false }

/-- Environment in which every CSV append raises. -/
def envWriteFails : Env := { envAllOk with writeResult := fun _ _ => some "disk full" }

/-- Environment in which every generate/decode step raises. -/
def envGenFails : Env := { envAllOk with genResult := fun _ _ => GenOutcome.raises "oom" }

/-- Environment in which every tokenizer-encoding call raises. -/
def envEncodeFails : Env := { envAllOk with encodeResult := fun _ _ => some "enc" }

/-- Environment in which every image load raises. -/
def envLoadFails : Env := { envAllOk with loadResult := fun _ => some "netfail" }

/-- Environment in which every debug print raises. -/
def envDebugFails : Env := { envAllOk with debugResult := fun _ _ => some "dboom" }

/-- Arguments with the debug flag set. -/
def argsDebug : Args := { argsBase with debug := true }

/-! ## Helper lemmas: the CSV log -/

lemma isFile_write (mp mb fi p r : String) (f : CsvFile) :
    (write_to_csv mp mb fi p r f).isFile = true := rfl

lemma headerCount_write (mp mb fi p r : String) (f : CsvFile) :
    headerCount (write_to_csv mp mb fi p r f) =
      headerCount f + (if f.isFile then 0 else 1) := by
  unfold write_to_csv headerCount
  cases h : f.isFile <;> simp [List.countP_append, List.countP_cons]

lemma dataRowsOf_write (mp mb fi p r : String) (f : CsvFile) :
    dataRowsOf (write_to_csv mp mb fi p r f) = dataRowsOf f ++ [(mp, mb, fi, p, r)] := by
  unfold write_to_csv dataRowsOf
  cases h : f.isFile <;> simp [List.filterMap_append]

lemma headerCount_writeAll_of_isFile :
    ∀ (cs : List CsvCall) (f : CsvFile), f.isFile = true →
      headerCount (writeAll cs f) = headerCount f := by
  intro cs
  induction cs with
  | nil => intro f _; rfl
  | cons c cs ih =>
    intro f h
    rw [writeAll, ih _ (isFile_write _ _ _ _ _ _), headerCount_write, h]
    simp

lemma rows_write (mp mb fi p r : String) (f : CsvFile) :
    (write_to_csv mp mb fi p r f).rows =
      f.rows ++ ((if f.isFile then [] else [CsvRow.header]) ++
        [CsvRow.data mp mb fi p r]) := by
  unfold write_to_csv
  cases h : f.isFile <;> simp

lemma rows_writeAll_extends :
    ∀ (cs : List CsvCall) (f : CsvFile), ∃ t, (writeAll cs f).rows = f.rows ++ t := by
  intro cs
  induction cs with
  | nil => intro f; exact ⟨[], by simp [writeAll]⟩
  | cons c cs ih =>
    intro f
    obtain ⟨t, ht⟩ := ih (write_to_csv c.model_path c.model_base c.image_file c.prompt c.response f)
    refine ⟨((if f.isFile then [] else [CsvRow.header]) ++
      [CsvRow.data c.model_path c.model_base c.image_file c.prompt c.response]) ++ t, ?_⟩
    rw [writeAll, ht, rows_write]
    simp

/-! ## Helper lemmas: the per-pair step -/

lemma processPair_encode_err (env : Env) (args : Args) (cm : String) (i j : Nat)
    (f raw : String) (st : RunState) (e : String)
    (henc : env.encodeResult i j = some e) :
    processPair env args cm i j f raw st = Except.error ⟨st, e⟩ := by
  simp [processPair, henc]

lemma processPair_gen_raises (env : Env) (args : Args) (cm : String) (i j : Nat)
    (f raw : String) (st : RunState) (e : String)
    (henc : env.encodeResult i j = none)
    (hgen : env.genResult i j = GenOutcome.raises e) :
    processPair env args cm i j f raw st =
      Except.ok { st with
        stdout := st.stdout ++ [errLine f (promptWithImageTokens env raw) e],
        genCalls := st.genCalls ++ [genCallOf env args cm raw] } := by
  simp [processPair, henc, hgen]

lemma processPair_write_err (env : Env) (args : Args) (cm : String) (i j : Nat)
    (f raw : String) (st : RunState) (d e : String)
    (henc : env.encodeResult i j = none)
    (hgen : env.genResult i j = GenOutcome.success d)
    (hwr : env.writeResult i j = some e) :
    processPair env args cm i j f raw st =
      Except.ok { st with
        stdout := st.stdout ++
          [assistLine (env.roles cm).2 (strTrim d),
           errLine f (promptWithImageTokens env raw) e],
        genCalls := st.genCalls ++ [genCallOf env args cm raw] } := by
  simp [processPair, henc, hgen, hwr]

lemma processPair_success_nodebug (env : Env) (args : Args) (cm : String) (i j : Nat)
    (f raw : String) (st : RunState) (d : String)
    (henc : env.encodeResult i j = none)
    (hgen : env.genResult i j = GenOutcome.success d)
    (hwr : env.writeResult i j = none)
    (hdbg : args.debug = false) :
    processPair env args cm i j f raw st =
      Except.ok
        { csv := write_to_csv args.model_path (args.model_base.getD "") f
            (promptWithImageTokens env raw) (strTrim d) st.csv,
          stdout := st.stdout ++ [assistLine (env.roles cm).2 (strTrim d)],
          genCalls := st.genCalls ++ [genCallOf env args cm raw] } := by
  simp [processPair, henc, hgen, hwr, hdbg]

lemma processPair_success_debug_ok (env : Env) (args : Args) (cm : String) (i j : Nat)
    (f raw : String) (st : RunState) (d : String)
    (henc : env.encodeResult i j = none)
    (hgen : env.genResult i j = GenOutcome.success d)
    (hwr : env.writeResult i j = none)
    (hdbg : args.debug = true)
    (hdr : env.debugResult i j = none) :
    processPair env args cm i j f raw st =
      Except.ok
        { csv := write_to_csv args.model_path (args.model_base.getD "") f
            (promptWithImageTokens env raw) (strTrim d) st.csv,
          stdout := st.stdout ++
            [assistLine (env.roles cm).2 (strTrim d),
             debugLine (env.render cm (promptWithImageTokens env raw)) (strTrim d)],
          genCalls := st.genCalls ++ [genCallOf env args cm raw] } := by
  simp [processPair, henc, hgen, hwr, hdbg, hdr]

lemma processPair_success_debug_err (env : Env) (args : Args) (cm : String) (i j : Nat)
    (f raw : String) (st : RunState) (d e : String)
    (henc : env.encodeResult i j = none)
    (hgen : env.genResult i j = GenOutcome.success d)
    (hwr : env.writeResult i j = none)
    (hdbg : args.debug = true)
    (hdr : env.debugResult i j = some e) :
    processPair env args cm i j f raw st =
      Except.ok
        { csv := write_to_csv args.model_path (args.model_base.getD "") f
            (promptWithImageTokens env raw) (strTrim d) st.csv,
          stdout := st.stdout ++
            [assistLine (env.roles cm).2 (strTrim d),
             errLine f (promptWithImageTokens env raw) e],
          genCalls := st.genCalls ++ [genCallOf env args cm raw] } := by
  simp [processPair, henc, hgen, hwr, hdbg, hdr]

lemma pairFails_eq (env : Env) (i j : Nat) :
    pairFails env i j = false ↔
      (∃ d, env.genResult i j = GenOutcome.success d) ∧ env.writeResult i j = none := by
  unfold pairFails
  cases hg : env.genResult i j <;> cases hw : env.writeResult i j <;> simp

lemma processPair_ok_dataRows (env : Env) (args : Args) (cm : String) (i j : Nat)
    (f raw : String) (st : RunState)
    (henc : env.encodeResult i j = none) :
    ∃ st', processPair env args cm i j f raw st = Except.ok st' ∧
      dataRowsOf st'.csv = dataRowsOf st.csv ++ pairRows env args i j f raw := by
  cases hg : env.genResult i j with
  | raises e =>
    exact ⟨_, processPair_gen_raises env args cm i j f raw st e henc hg,
      by simp [pairRows, hg]⟩
  | success d =>
    cases hw : env.writeResult i j with
    | some e =>
      exact ⟨_, processPair_write_err env args cm i j f raw st d e henc hg hw,
        by simp [pairRows, hg, hw]⟩
    | none =>
      cases hdbg : args.debug with
      | false =>
        exact ⟨_, processPair_success_nodebug env args cm i j f raw st d henc hg hw hdbg,
          by simp [pairRows, hg, hw, dataRowsOf_write]⟩
      | true =>
        cases hdr : env.debugResult i j with
        | none =>
          exact ⟨_, processPair_success_debug_ok env args cm i j f raw st d henc hg hw hdbg hdr,
            by simp [pairRows, hg, hw, dataRowsOf_write]⟩
        | some e =>
          exact ⟨_, processPair_success_debug_err env args cm i j f raw st d e henc hg hw hdbg hdr,
            by simp [pairRows, hg, hw, dataRowsOf_write]⟩

lemma processPrompts_ok_dataRows (env : Env) (args : Args) (cm : String) (i : Nat)
    (f : String) :
    ∀ (ps : List String) (j : Nat) (st : RunState),
      (∀ k, k < ps.length → env.encodeResult i (j + k) = none) →
      ∃ st', processPrompts env args cm i f ps j st = Except.ok st' ∧
        dataRowsOf st'.csv = dataRowsOf st.csv ++ promptRows env args i f ps j := by
  intro ps
  induction ps with
  | nil => intro j st _; exact ⟨st, rfl, by simp [promptRows]⟩
  | cons raw rest ih =>
    intro j st h
    have henc : env.encodeResult i j = none := by simpa using h 0 (by simp)
    obtain ⟨st1, hp, hd⟩ := processPair_ok_dataRows env args cm i j f raw st henc
    obtain ⟨st2, hq, hd2⟩ := ih (j + 1) st1 (fun k hk => by
      have := h (k + 1) (by simpa using Nat.succ_lt_succ hk)
      simpa [Nat.add_assoc, Nat.add_comm, Nat.add_left_comm] using this)
    refine ⟨st2, ?_, ?_⟩
    · simp [processPrompts, hp, hq]
    · rw [hd2, hd]; simp [promptRows]

lemma processImages_load_err (env : Env) (args : Args) (cm : String) (ps : List String)
    (f : String) (rest : List String) (i : Nat) (st : RunState) (e : String)
    (hload : env.loadResult i = some e) :
    processImages env args cm ps (f :: rest) i st = Except.error ⟨st, e⟩ := by
  simp [processImages, hload]

lemma processImages_ok_dataRows (env : Env) (args : Args) (cm : String) (ps : List String) :
    ∀ (files : List String) (i : Nat) (st : RunState),
      (∀ k, k < files.length → env.loadResult (i + k) = none) →
      (∀ k, k < files.length → ∀ j, j < ps.length → env.encodeResult (i + k) j = none) →
      ∃ st', processImages env args cm ps files i st = Except.ok st' ∧
        dataRowsOf st'.csv = dataRowsOf st.csv ++ imageRows env args ps files i := by
  intro files
  induction files with
  | nil => intro i st _ _; exact ⟨st, rfl, by simp [imageRows]⟩
  | cons f rest ih =>
    intro i st hload henc
    have hl : env.loadResult i = none := by simpa using hload 0 (by simp)
    have he : ∀ k, k < ps.length → env.encodeResult i (0 + k) = none := by
      intro k hk
      simpa [Nat.zero_add] using henc 0 (by simp) k hk
    obtain ⟨st1, hp, hd⟩ := processPrompts_ok_dataRows env args cm i (strTrim f) ps 0 st he
    obtain ⟨st2, hq, hd2⟩ := ih (i + 1) st1
      (fun k hk => by
        have := hload (k + 1) (by simpa using Nat.succ_lt_succ hk)
        simpa [Nat.add_assoc, Nat.add_comm, Nat.add_left_comm] using this)
      (fun k hk j hj => by
        have := henc (k + 1) (by simpa using Nat.succ_lt_succ hk) j hj
        simpa [Nat.add_assoc, Nat.add_comm, Nat.add_left_comm] using this)
    refine ⟨st2, ?_, ?_⟩
    · simp [processImages, hl, hp, hq]
    · rw [hd2, hd]; simp [imageRows]

lemma pairRows_length (env : Env) (args : Args) (i j : Nat) (f raw : String) :
    (pairRows env args i j f raw).length = if pairFails env i j then 0 else 1 := by
  unfold pairRows pairFails
  cases hg : env.genResult i j <;> cases hw : env.writeResult i j <;> simp [hw]

lemma promptRows_length_add (env : Env) (args : Args) (i : Nat) (f : String) :
    ∀ (ps : List String) (j : Nat),
      (promptRows env args i f ps j).length + failCountP env i j ps.length = ps.length := by
  intro ps
  induction ps with
  | nil => intro j; simp [promptRows, failCountP]
  | cons raw rest ih =>
    intro j
    have h1 := ih (j + 1)
    have h2 := pairRows_length env args i j f raw
    show (pairRows env args i j f raw ++ promptRows env args i f rest (j + 1)).length
        + ((if pairFails env i j then 1 else 0) + failCountP env i (j + 1) rest.length)
        = rest.length + 1
    rw [List.length_append]
    cases h : pairFails env i j <;> rw [h] at h2 <;> simp at h2 <;> simp [h2] <;> omega

lemma imageRows_length_add (env : Env) (args : Args) (ps : List String) :
    ∀ (files : List String) (i : Nat),
      (imageRows env args ps files i).length +
        failCountAll env i ps.length files.length = files.length * ps.length := by
  intro files
  induction files with
  | nil => intro i; simp [imageRows, failCountAll]
  | cons f rest ih =>
    intro i
    have h1 := ih (i + 1)
    have h2 := promptRows_length_add env args i (strTrim f) ps 0
    simp only [imageRows, List.length_cons, failCountAll, List.length_append]
    have h3 : (rest.length + 1) * ps.length = ps.length + rest.length * ps.length := by
      simp [Nat.succ_mul, Nat.add_comm]
    omega

lemma failCountAll_le (env : Env) (ps : List String) (files : List String) (i : Nat) :
    failCountAll env i ps.length files.length ≤ files.length * ps.length := by
  have := imageRows_length_add env ⟨"", none, none, 0, 0, false⟩ ps files i
  omega

/-- The sampling-mode property every issued generation call satisfies:
`do_sample` is exactly the test `args.temperature > 0`. -/
def sampleOk (args : Args) (c : GenCall) : Prop :=
  c.do_sample = (if args.temperature > 0 then true else false)

lemma processPair_genCalls (env : Env) (args : Args) (cm : String) (i j : Nat)
    (f raw : String) (st : RunState) :
    (resultState (processPair env args cm i j f raw st)).genCalls = st.genCalls ∨
    (resultState (processPair env args cm i j f raw st)).genCalls =
      st.genCalls ++ [genCallOf env args cm raw] := by
  cases henc : env.encodeResult i j with
  | some e => left; rw [processPair_encode_err env args cm i j f raw st e henc]; rfl
  | none =>
    right
    cases hg : env.genResult i j with
    | raises e => rw [processPair_gen_raises env args cm i j f raw st e henc hg]; rfl
    | success d =>
      cases hw : env.writeResult i j with
      | some e => rw [processPair_write_err env args cm i j f raw st d e henc hg hw]; rfl
      | none =>
        cases hdbg : args.debug with
        | false =>
          rw [processPair_success_nodebug env args cm i j f raw st d henc hg hw hdbg]; rfl
        | true =>
          cases hdr : env.debugResult i j with
          | none =>
            rw [processPair_success_debug_ok env args cm i j f raw st d henc hg hw hdbg hdr]
            rfl
          | some e =>
            rw [processPair_success_debug_err env args cm i j f raw st d e henc hg hw hdbg hdr]
            rfl

lemma processPair_genCalls_mem (env : Env) (args : Args) (cm : String) (i j : Nat)
    (f raw : String) (st : RunState) (c : GenCall)
    (hc : c ∈ (resultState (processPair env args cm i j f raw st)).genCalls) :
    c ∈ st.genCalls ∨ sampleOk args c := by
  rcases processPair_genCalls env args cm i j f raw st with h | h
  · left; rwa [h] at hc
  · rw [h] at hc
    rcases List.mem_append.mp hc with h1 | h1
    · left; exact h1
    · right
      have : c = genCallOf env args cm raw := by simpa using h1
      rw [this]
      rfl

lemma processPrompts_genCalls_mem (env : Env) (args : Args) (cm : String) (i : Nat)
    (f : String) :
    ∀ (ps : List String) (j : Nat) (st : RunState) (c : GenCall),
      c ∈ (resultState (processPrompts env args cm i f ps j st)).genCalls →
      c ∈ st.genCalls ∨ sampleOk args c := by
  intro ps
  induction ps with
  | nil => intro j st c hc; left; exact hc
  | cons raw rest ih =>
    intro j st c hc
    cases hp : processPair env args cm i j f raw st with
    | error a =>
      have heq : resultState (processPair env args cm i j f raw st) = a.state := by
        rw [hp]; rfl
      rw [processPrompts, hp] at hc
      exact processPair_genCalls_mem env args cm i j f raw st c (by rw [heq]; exact hc)
    | ok st1 =>
      rw [processPrompts, hp] at hc
      rcases ih (j + 1) st1 c hc with h1 | h1
      · exact processPair_genCalls_mem env args cm i j f raw st c (by rw [hp]; exact h1)
      · right; exact h1

lemma processImages_genCalls_mem (env : Env) (args : Args) (cm : String) (ps : List String) :
    ∀ (files : List String) (i : Nat) (st : RunState) (c : GenCall),
      c ∈ (resultState (processImages env args cm ps files i st)).genCalls →
      c ∈ st.genCalls ∨ sampleOk args c := by
  intro files
  induction files with
  | nil => intro i st c hc; left; exact hc
  | cons f rest ih =>
    intro i st c hc
    cases hl : env.loadResult i with
    | some e =>
      left
      rw [processImages_load_err env args cm ps f rest i st e hl] at hc
      exact hc
    | none =>
      rw [processImages, hl] at hc
      cases hp : processPrompts env args cm i (strTrim f) ps 0 st with
      | error a =>
        rw [hp] at hc
        have : c ∈ (resultState (processPrompts env args cm i (strTrim f) ps 0 st)).genCalls := by
          rw [hp]; exact hc
        exact processPrompts_genCalls_mem env args cm i (strTrim f) ps 0 st c this
      | ok st1 =>
        rw [hp] at hc
        rcases ih (i + 1) st1 c hc with h1 | h1
        · have : c ∈ (resultState (processPrompts env args cm i (strTrim f) ps 0 st)).genCalls := by
            rw [hp]; exact h1
          exact processPrompts_genCalls_mem env args cm i (strTrim f) ps 0 st c this
        · right; exact h1

/-- The placeholder-prefixed prompt always differs from the raw prompt: the
prefix contributes at least the newline character. -/
lemma promptWithImageTokens_ne (env : Env) (p : String) :
    promptWithImageTokens env p ≠ p := by
  have h1 : ("\n" : String).length = 1 := rfl
  unfold promptWithImageTokens
  split <;> intro h <;> have hlen := congrArg String.length h <;>
    simp [String.length_append, h1] at hlen

lemma pairRows_promptField (env : Env) (args : Args) (i j : Nat) (f raw : String)
    (r : DataRow) (hr : r ∈ pairRows env args i j f raw) :
    promptField r = promptWithImageTokens env raw := by
  unfold pairRows at hr
  cases hg : env.genResult i j <;> rw [hg] at hr <;>
    cases hw : env.writeResult i j <;> rw [hw] at hr <;> simp at hr
  rw [hr]
  rfl

lemma imageRows_single_promptField (env : Env) (args : Args) (p : String) :
    ∀ (files : List String) (i : Nat) (r : DataRow),
      r ∈ imageRows env args [p] files i → promptField r = promptWithImageTokens env p := by
  intro files
  induction files with
  | nil => intro i r hr; simp [imageRows] at hr
  | cons f rest ih =>
    intro i r hr
    rw [imageRows] at hr
    rcases List.mem_append.mp hr with h1 | h1
    · have h2 : r ∈ pairRows env args i 0 (strTrim f) p := by
        simpa [promptRows] using h1
      exact pairRows_promptField env args i 0 (strTrim f) p r h2
    · exact ih (i + 1) r h1

lemma imageRows_single_length (env : Env) (args : Args) (p : String) :
    ∀ (files : List String) (i : Nat),
      (∀ k, k < files.length → ∃ d, env.genResult (i + k) 0 = GenOutcome.success d) →
      (∀ k, k < files.length → env.writeResult (i + k) 0 = none) →
      (imageRows env args [p] files i).length = files.length := by
  intro files
  induction files with
  | nil => intro i _ _; simp [imageRows]
  | cons f rest ih =>
    intro i hgen hwr
    obtain ⟨d, hd⟩ : ∃ d, env.genResult i 0 = GenOutcome.success d := by
      simpa using hgen 0 (by simp)
    have hw : env.writeResult i 0 = none := by simpa using hwr 0 (by simp)
    have hrec := ih (i + 1)
      (fun k hk => by
        have := hgen (k + 1) (by simpa using Nat.succ_lt_succ hk)
        simpa [Nat.add_assoc, Nat.add_comm, Nat.add_left_comm] using this)
      (fun k hk => by
        have := hwr (k + 1) (by simpa using Nat.succ_lt_succ hk)
        simpa [Nat.add_assoc, Nat.add_comm, Nat.add_left_comm] using this)
    rw [imageRows, List.length_append, hrec]
    have : (promptRows env args i (strTrim f) [p] 0).length = 1 := by
      simp [promptRows, pairRows, hd, hw]
    rw [this]
    simp [Nat.add_comm]

/-! ## Claim theorems -/

/-- Claim C2: on every call of the CSV-append operation the five-column
header row is written exactly when `output.csv` does not exist at the
moment of the call; across any sequence of appends starting from a
nonexistent file the header appears exactly once and is the first row
written, and a sequence of appends against a pre-existing file never adds
a header. -/
theorem header_written_iff_file_absent :
    (∀ mp mb fi p r f, headerCount (write_to_csv mp mb fi p r f) =
        headerCount f + (if f.isFile then 0 else 1)) ∧
    rowFields CsvRow.header =
      ["Model Path", "Model Base", "Image File URL", "Prompt", "Response"] ∧
    (∀ c cs (f : CsvFile), f.isFile = false →
        headerCount (writeAll (c :: cs) f) = headerCount f + 1) ∧
    (∀ c cs, (writeAll (c :: cs) csvEmpty).rows.head? = some CsvRow.header) ∧
    (∀ cs (f : CsvFile), f.isFile = true → headerCount (writeAll cs f) = headerCount f) := by
  refine ⟨headerCount_write, rfl, ?_, ?_, headerCount_writeAll_of_isFile⟩
  · intro c cs f h
    rw [writeAll, headerCount_writeAll_of_isFile cs _ (isFile_write _ _ _ _ _ _),
      headerCount_write, h]
    simp
  · intro c cs
    rw [writeAll]
    obtain ⟨t, ht⟩ := rows_writeAll_extends cs
      (write_to_csv c.model_path c.model_base c.image_file c.prompt c.response csvEmpty)
    rw [ht]
    rfl

/-- Witness for C2 at concrete inputs. -/
theorem header_written_iff_file_absent_witness :
    headerCount (write_to_csv "m" "b" "i" "p" "r" csvEmpty) =
      headerCount csvEmpty + (if csvEmpty.isFile then 0 else 1) ∧
    headerCount (writeAll [⟨"m", "b", "i", "p", "r"⟩, ⟨"m2", "b2", "i2", "p2", "r2"⟩] csvEmpty) =
      headerCount csvEmpty + 1 ∧
    (writeAll [⟨"m", "b", "i", "p", "r"⟩] csvEmpty).rows.head? = some CsvRow.header ∧
    headerCount (writeAll [⟨"m", "b", "i", "p", "r"⟩] ⟨true, []⟩) = headerCount ⟨true, []⟩ :=
  ⟨header_written_iff_file_absent.1 "m" "b" "i" "p" "r" csvEmpty,
   header_written_iff_file_absent.2.2.1 ⟨"m", "b", "i", "p", "r"⟩
     [⟨"m2", "b2", "i2", "p2", "r2"⟩] csvEmpty rfl,
   header_written_iff_file_absent.2.2.2.1 ⟨"m", "b", "i", "p", "r"⟩ [],
   header_written_iff_file_absent.2.2.2.2 [⟨"m", "b", "i", "p", "r"⟩] ⟨true, []⟩ rfl⟩

/-- Claim C3: conversation-mode inference is ordered first-match-wins
substring testing on the lower-cased model name with fallback
`"llava_v0"`; on `"llava-v1.6-34b-something"` it yields the 34b-specific
`"chatml_direct"`, not `"llava_v1"`, and it agrees everywhere with the
spec's priority-list formulation. -/
theorem conv_mode_ordered_first_match :
    inferConvMode "llava-v1.6-34b-something" = "chatml_direct" ∧
    inferConvMode "llava-v1.6-34b-something" ≠ "llava_v1" ∧
    (∀ name, inferConvMode name = inferConvModeSpec name) ∧
    (∀ name, (convModePriorityList.all
        fun q => !strContains q.1 (strToLower name)) = true →
      inferConvMode name = "llava_v0") := by
  refine ⟨by decide, by decide, ?_, ?_⟩
  · intro name
    unfold inferConvMode inferConvModeSpec convModePriorityList
    cases h1 : strContains "llama-2" (strToLower name) <;>
      cases h2 : strContains "mistral" (strToLower name) <;>
        cases h3 : strContains "v1.6-34b" (strToLower name) <;>
          cases h4 : strContains "v1" (strToLower name) <;>
            cases h5 : strContains "mpt" (strToLower name) <;>
              simp [List.find?, h1, h2, h3, h4, h5]
  · intro name h
    simp only [convModePriorityList, List.all_cons, List.all_nil,
      Bool.and_eq_true, Bool.not_eq_true'] at h
    obtain ⟨h1, h2, h3, h4, h5⟩ := h
    simp [inferConvMode, h1, h2, h3, h4, h5]

/-- Witness for C3's quantified parts at concrete inputs. -/
theorem conv_mode_ordered_first_match_witness :
    inferConvMode "foo-model" = "llava_v0" ∧
    inferConvMode "mpt-7b" = inferConvModeSpec "mpt-7b" :=
  ⟨conv_mode_ordered_first_match.2.2.2 "foo-model" (by decide),
   conv_mode_ordered_first_match.2.2.1 "mpt-7b"⟩

/-- Claim C4: a supplied `--conv-mode` that differs from the inferred mode
is used and the warning is printed; with no override the inferred mode is
used and nothing is printed; the resolved mode is the one `runMain` hands
to the whole loop. -/
theorem conv_mode_override_wins_with_warning :
    (∀ inferred o, inferred ≠ o →
        resolveConvMode inferred (some o) = (o, some (warningLine inferred o))) ∧
    (∀ inferred, resolveConvMode inferred none = (inferred, none)) ∧
    (∀ env args image_lines prompt_lines csv0,
        runMain env args image_lines prompt_lines csv0 =
          processImages env args
            (resolveConvMode
              (inferConvMode (env.get_model_name_from_path args.model_path))
              args.conv_mode).1
            (prompt_lines.map strTrim) image_lines 0
            ⟨csv0,
             (match (resolveConvMode
                 (inferConvMode (env.get_model_name_from_path args.model_path))
                 args.conv_mode).2 with
              | some w => [w]
              | none => []),
             []⟩) := by
  refine ⟨?_, fun inferred => rfl, fun env args il pl csv0 => rfl⟩
  intro inferred o h
  simp [resolveConvMode, h]

/-- Witness for C4 at concrete inputs. -/
theorem conv_mode_override_wins_with_warning_witness :
    resolveConvMode "llava_v1" (some "mpt") = ("mpt", some (warningLine "llava_v1" "mpt")) ∧
    resolveConvMode "llava_v1" none = ("llava_v1", none) :=
  ⟨conv_mode_override_wins_with_warning.1 "llava_v1" "mpt" (by decide),
   conv_mode_override_wins_with_warning.2.1 "llava_v1"⟩

/-- Counterexample to claim C1 as stated: a run with one image and one
prompt, all image loads succeeding and the generation step succeeding, in
which the CSV append itself raises (the append is inside the same `try`
block).  Zero rows are appended, yet m×n minus the number of pairs whose
generation step raised is 1×1 − 0 = 1. -/
theorem row_count_mismatch_on_csv_write_failure :
    (runMain envWriteFails argsBase ["img"] ["p"] csvEmpty).map (fun st => dataCount st.csv) =
      Except.ok 0 ∧
    genFailCountAll envWriteFails 0 1 1 = 0 ∧
    1 * 1 - genFailCountAll envWriteFails 0 1 1 = 1 := by decide

/-- Claim C1 (amended): for every run in which all image loads succeed and
no per-pair tokenizer-encoding call raises, the run completes, the number
of pairs that fail before their CSV append completes is at most m×n, and
the number of data rows appended to `output.csv` equals m×n minus that
failure count (failures of the generate/decode step or of the append
itself — not of the generate/decode step alone, since the append runs
inside the same `try` block). -/
theorem row_count_eq_pairs_minus_preappend_failures
    (env : Env) (args : Args) (image_lines prompt_lines : List String) (csv0 : CsvFile)
    (hload : ∀ i, i < image_lines.length → env.loadResult i = none)
    (henc : ∀ i, i < image_lines.length → ∀ j, j < prompt_lines.length →
        env.encodeResult i j = none) :
    ∃ st, runMain env args image_lines prompt_lines csv0 = Except.ok st ∧
      failCountAll env 0 prompt_lines.length image_lines.length ≤
        image_lines.length * prompt_lines.length ∧
      dataCount st.csv = dataCount csv0 +
        (image_lines.length * prompt_lines.length -
          failCountAll env 0 prompt_lines.length image_lines.length) := by
  have hl0 : ∀ k, k < image_lines.length → env.loadResult (0 + k) = none := by
    intro k hk
    simpa using hload k hk
  have he0 : ∀ k, k < image_lines.length →
      ∀ j, j < (prompt_lines.map strTrim).length → env.encodeResult (0 + k) j = none := by
    intro k hk j hj
    have := henc k hk j (by simpa using hj)
    simpa using this
  obtain ⟨st, h1, h2⟩ := processImages_ok_dataRows env args
    (resolveConvMode (inferConvMode (env.get_model_name_from_path args.model_path))
      args.conv_mode).1
    (prompt_lines.map strTrim) image_lines 0
    ⟨csv0,
     (match (resolveConvMode (inferConvMode (env.get_model_name_from_path args.model_path))
         args.conv_mode).2 with
      | some w => [w]
      | none => []),
     []⟩ hl0 he0
  have hlen := imageRows_length_add env args (prompt_lines.map strTrim) image_lines 0
  rw [List.length_map] at hlen
  refine ⟨st, h1, by omega, ?_⟩
  have h3 : dataCount st.csv = dataCount csv0 + (imageRows env args
      (prompt_lines.map strTrim) image_lines 0).length := by
    unfold dataCount
    rw [h2, List.length_append]
  omega

/-- Witness for the amended C1 at a concrete all-success run. -/
theorem row_count_eq_pairs_minus_preappend_failures_witness :
    ∃ st, runMain envAllOk argsBase ["img"] ["p"] csvEmpty = Except.ok st ∧
      failCountAll envAllOk 0 (["p"] : List String).length (["img"] : List String).length ≤
        (["img"] : List String).length * (["p"] : List String).length ∧
      dataCount st.csv = dataCount csvEmpty +
        ((["img"] : List String).length * (["p"] : List String).length -
          failCountAll envAllOk 0 (["p"] : List String).length
            (["img"] : List String).length) :=
  row_count_eq_pairs_minus_preappend_failures envAllOk argsBase ["img"] ["p"] csvEmpty
    (fun _ _ => rfl) (fun _ _ _ _ => rfl)

/-- Counterexample to claim C5 as stated: an exception in the encoding step
(`tokenizer_image_token`, line 92) is raised outside the `try` block.  In
a run of one image and two prompts where every encoding call raises, the
run aborts on the first pair with the raw exception: nothing is printed,
no generation call is made, and the second prompt is never processed —
the error is not caught and the driver does not proceed to the next
prompt. -/
theorem encode_exception_not_caught :
    runMain envEncodeFails argsBase ["img"] ["p", "q"] csvEmpty =
      Except.error ⟨⟨csvEmpty, [], []⟩, "enc"⟩ := by decide

/-- Claim C5 (amended): an exception raised inside the `try` block — in
particular in the generate/decode step — is caught: the handler prints the
error line naming the offending image and (placeholder-prefixed) prompt,
no data row is appended for the pair, and the prompt loop continues with
the next prompt.  (An exception in the encoding step, which precedes the
`try` block, instead aborts the run.) -/
theorem generation_exception_caught_and_loop_continues
    (env : Env) (args : Args) (cm : String) (i j : Nat) (f raw : String)
    (rest : List String) (st : RunState) (e : String)
    (henc : env.encodeResult i j = none)
    (hgen : env.genResult i j = GenOutcome.raises e) :
    ∃ st', processPair env args cm i j f raw st = Except.ok st' ∧
      st'.csv = st.csv ∧
      st'.stdout = st.stdout ++ [errLine f (promptWithImageTokens env raw) e] ∧
      processPrompts env args cm i f (raw :: rest) j st =
        processPrompts env args cm i f rest (j + 1) st' := by
  refine ⟨_, processPair_gen_raises env args cm i j f raw st e henc hgen, rfl, rfl, ?_⟩
  simp [processPrompts, processPair_gen_raises env args cm i j f raw st e henc hgen]

/-- Witness for the amended C5 at a concrete failing generation. -/
theorem generation_exception_caught_and_loop_continues_witness :
    ∃ st', processPair envGenFails argsBase "llava_v0" 0 0 "img" "p"
        ⟨csvEmpty, [], []⟩ = Except.ok st' ∧
      st'.csv = (⟨csvEmpty, [], []⟩ : RunState).csv ∧
      st'.stdout = (⟨csvEmpty, [], []⟩ : RunState).stdout ++
        [errLine "img" (promptWithImageTokens envGenFails "p") "oom"] ∧
      processPrompts envGenFails argsBase "llava_v0" 0 "img" ["p", "q"] 0 ⟨csvEmpty, [], []⟩ =
        processPrompts envGenFails argsBase "llava_v0" 0 "img" ["q"] (0 + 1) st' :=
  generation_exception_caught_and_loop_continues envGenFails argsBase "llava_v0" 0 0 "img" "p"
    ["q"] ⟨csvEmpty, [], []⟩ "oom" rfl rfl

/-- Claim C6: an exception while acquiring an image (`load_image` and the
following preprocessing, lines 66-75) is caught nowhere: the image loop
aborts immediately with the raw error and the state it had, so no
subsequent image or prompt is processed; at image index 0 the whole run
aborts with the log untouched and no generation call made. -/
theorem image_load_failure_aborts_run :
    (∀ env args cm ps f rest i st e, env.loadResult i = some e →
        processImages env args cm ps (f :: rest) i st = Except.error ⟨st, e⟩) ∧
    (∀ env args f rest prompt_lines csv0 e, env.loadResult 0 = some e →
        ∃ st, runMain env args (f :: rest) prompt_lines csv0 = Except.error ⟨st, e⟩ ∧
          st.csv = csv0 ∧ st.genCalls = []) := by
  constructor
  · exact fun env args cm ps f rest i st e h =>
      processImages_load_err env args cm ps f rest i st e h
  · intro env args f rest pl csv0 e h
    refine ⟨⟨csv0,
      (match (resolveConvMode (inferConvMode (env.get_model_name_from_path args.model_path))
          args.conv_mode).2 with
       | some w => [w]
       | none => []),
      []⟩, ?_, rfl, rfl⟩
    exact processImages_load_err env args _ (pl.map strTrim) f rest 0 _ e h

/-- Witness for C6 at a concrete failing image load. -/
theorem image_load_failure_aborts_run_witness :
    processImages envLoadFails argsBase "llava_v0" ["p"] ["img", "img2"] 0 ⟨csvEmpty, [], []⟩ =
      Except.error ⟨⟨csvEmpty, [], []⟩, "netfail"⟩ ∧
    ∃ st, runMain envLoadFails argsBase ["img", "img2"] ["p"] csvEmpty =
        Except.error ⟨st, "netfail"⟩ ∧ st.csv = csvEmpty ∧ st.genCalls = [] :=
  ⟨image_load_failure_aborts_run.1 envLoadFails argsBase "llava_v0" ["p"] "img" ["img2"] 0
      ⟨csvEmpty, [], []⟩ "netfail" rfl,
   image_load_failure_aborts_run.2 envLoadFails argsBase "img" ["img2"] ["p"] csvEmpty
      "netfail" rfl⟩

/-- Counterexample to claim C7 as stated: with image list `["cat.jpg"]` and
a prompt file holding one blank line, exactly one record is produced, but
its `Prompt` field is the placeholder-prefixed prompt `"<image>\n"`, not
the empty string — the loop variable is reassigned before the record is
written. -/
theorem blank_prompt_row_field_not_empty :
    (runMain envAllOk argsBase ["cat.jpg"] [""] csvEmpty).map (fun st => dataRowsOf st.csv) =
      Except.ok [("mp", "", "cat.jpg", "<image>\n", "ok")] ∧
    promptField ("mp", "", "cat.jpg", "<image>\n", "ok") ≠ "" := by decide

/-- Claim C7 (amended): a blank line in the prompt file is not filtered
out: it becomes the literal empty-string prompt, and (when every load,
encode, generate and append succeeds) it produces exactly one record per
image — but each such record's `Prompt` field is the image-placeholder
prefix plus a newline prepended to the empty prompt, which is never the
empty string. -/
theorem blank_prompt_rows_have_placeholder_prompt
    (env : Env) (args : Args) (image_lines : List String) (l : String) (csv0 : CsvFile)
    (hl : strTrim l = "")
    (hload : ∀ i, i < image_lines.length → env.loadResult i = none)
    (henc : ∀ i, i < image_lines.length → env.encodeResult i 0 = none)
    (hgen : ∀ i, i < image_lines.length → ∃ d, env.genResult i 0 = GenOutcome.success d)
    (hwr : ∀ i, i < image_lines.length → env.writeResult i 0 = none) :
    [l].map strTrim = [""] ∧
    ∃ st rowsNew, runMain env args image_lines [l] csv0 = Except.ok st ∧
      dataRowsOf st.csv = dataRowsOf csv0 ++ rowsNew ∧
      rowsNew.length = image_lines.length ∧
      (∀ r ∈ rowsNew, promptField r = promptWithImageTokens env "") ∧
      promptWithImageTokens env "" ≠ "" := by
  have hps : [l].map strTrim = [""] := by simp [hl]
  refine ⟨hps, ?_⟩
  have hl0 : ∀ k, k < image_lines.length → env.loadResult (0 + k) = none := by
    intro k hk
    simpa using hload k hk
  have he0 : ∀ k, k < image_lines.length →
      ∀ j, j < ([""] : List String).length → env.encodeResult (0 + k) j = none := by
    intro k hk j hj
    have hj0 : j = 0 := by simpa using hj
    subst hj0
    simpa using henc k hk
  obtain ⟨st, h1, h2⟩ := processImages_ok_dataRows env args
    (resolveConvMode (inferConvMode (env.get_model_name_from_path args.model_path))
      args.conv_mode).1
    [""] image_lines 0
    ⟨csv0,
     (match (resolveConvMode (inferConvMode (env.get_model_name_from_path args.model_path))
         args.conv_mode).2 with
      | some w => [w]
      | none => []),
     []⟩ hl0 he0
  rw [← hps] at h1
  refine ⟨st, imageRows env args [""] image_lines 0, h1, h2, ?_, ?_,
    promptWithImageTokens_ne env ""⟩
  · refine imageRows_single_length env args "" image_lines 0 ?_ ?_
    · intro k hk
      simpa using hgen k hk
    · intro k hk
      simpa using hwr k hk
  · intro r hr
    exact imageRows_single_promptField env args "" image_lines 0 r hr

/-- Witness for the amended C7 at a concrete run. -/
theorem blank_prompt_rows_have_placeholder_prompt_witness :
    [""].map strTrim = [""] ∧
    ∃ st rowsNew, runMain envAllOk argsBase ["cat.jpg"] [""] csvEmpty = Except.ok st ∧
      dataRowsOf st.csv = dataRowsOf csvEmpty ++ rowsNew ∧
      rowsNew.length = (["cat.jpg"] : List String).length ∧
      (∀ r ∈ rowsNew, promptField r = promptWithImageTokens envAllOk "") ∧
      promptWithImageTokens envAllOk "" ≠ "" :=
  blank_prompt_rows_have_placeholder_prompt envAllOk argsBase ["cat.jpg"] "" csvEmpty rfl
    (fun _ _ => rfl) (fun _ _ => rfl) (fun _ _ => ⟨"ok", rfl⟩) (fun _ _ => rfl)

/-- Claim C8: every generation call issued during a run (completed or
aborted) has `do_sample` true exactly when the configured temperature is
strictly positive; with temperature 0 generation is invoked with
`do_sample` false. -/
theorem do_sample_iff_positive_temperature
    (env : Env) (args : Args) (image_lines prompt_lines : List String) (csv0 : CsvFile)
    (c : GenCall)
    (hc : c ∈ (resultState (runMain env args image_lines prompt_lines csv0)).genCalls) :
    (c.do_sample = true ↔ args.temperature > 0) ∧
    (args.temperature = 0 → c.do_sample = false) := by
  have h1 : c ∈ (resultState (processImages env args
      (resolveConvMode (inferConvMode (env.get_model_name_from_path args.model_path))
        args.conv_mode).1
      (prompt_lines.map strTrim) image_lines 0
      ⟨csv0,
       (match (resolveConvMode (inferConvMode (env.get_model_name_from_path args.model_path))
           args.conv_mode).2 with
        | some w => [w]
        | none => []),
       []⟩)).genCalls := hc
  rcases processImages_genCalls_mem env args _ (prompt_lines.map strTrim) image_lines 0 _ c h1
    with h | h
  · exact absurd h (by simp)
  · unfold sampleOk at h
    by_cases ht : args.temperature > 0
    · rw [if_pos ht] at h
      refine ⟨⟨fun _ => ht, fun _ => h⟩, ?_⟩
      intro h0
      rw [h0] at ht
      exact absurd ht (by norm_num)
    · rw [if_neg ht] at h
      refine ⟨⟨?_, fun hpos => absurd hpos ht⟩, fun _ => h⟩
      intro hs
      rw [h] at hs
      exact absurd hs (by simp)

/-- Witness for C8: the single call of a temperature-0 run is
deterministic. -/
theorem do_sample_iff_positive_temperature_witness :
    (((⟨"<image>\np", false, 0, 512⟩ : GenCall).do_sample = true) ↔ argsBase.temperature > 0) ∧
    (argsBase.temperature = 0 → (⟨"<image>\np", false, 0, 512⟩ : GenCall).do_sample = false) :=
  do_sample_iff_positive_temperature envAllOk argsBase ["img"] ["p"] csvEmpty
    ⟨"<image>\np", false, 0, 512⟩ (by decide)

/-- Claim C9: the `Prompt` field of the record a successful pair appends is
the placeholder-prefixed prompt — the start/end-delimited image token
sequence plus newline, or the bare image token plus newline, according to
`mm_use_im_start_end` — and never the raw prompt line itself. -/
theorem csv_prompt_field_is_placeholder_prefixed
    (env : Env) (args : Args) (cm : String) (i j : Nat) (f raw : String)
    (st : RunState) (d : String)
    (henc : env.encodeResult i j = none)
    (hgen : env.genResult i j = GenOutcome.success d)
    (hwr : env.writeResult i j = none) :
    ∃ st', processPair env args cm i j f raw st = Except.ok st' ∧
      dataRowsOf st'.csv = dataRowsOf st.csv ++
        [(args.model_path, args.model_base.getD "", f,
          (if env.mm_use_im_start_end then
            env.default_im_start_token ++ env.default_image_token ++
              env.default_im_end_token ++ "\n" ++ raw
          else env.default_image_token ++ "\n" ++ raw), strTrim d)] ∧
      promptWithImageTokens env raw ≠ raw := by
  obtain ⟨st', h1, h2⟩ := processPair_ok_dataRows env args cm i j f raw st henc
  refine ⟨st', h1, ?_, promptWithImageTokens_ne env raw⟩
  rw [h2]
  simp [pairRows, hgen, hwr, promptWithImageTokens]

/-- Witness for C9 at a concrete successful pair. -/
theorem csv_prompt_field_is_placeholder_prefixed_witness :
    ∃ st', processPair envAllOk argsBase "llava_v0" 0 0 "img" "p" ⟨csvEmpty, [], []⟩ =
        Except.ok st' ∧
      dataRowsOf st'.csv = dataRowsOf (⟨csvEmpty, [], []⟩ : RunState).csv ++
        [(argsBase.model_path, argsBase.model_base.getD "", "img",
          (if envAllOk.mm_use_im_start_end then
            envAllOk.default_im_start_token ++ envAllOk.default_image_token ++
              envAllOk.default_im_end_token ++ "\n" ++ "p"
          else envAllOk.default_image_token ++ "\n" ++ "p"), strTrim "ok")] ∧
      promptWithImageTokens envAllOk "p" ≠ "p" :=
  csv_prompt_field_is_placeholder_prefixed envAllOk argsBase "llava_v0" 0 0 "img" "p"
    ⟨csvEmpty, [], []⟩ "ok" rfl rfl rfl

/-- Claim C10: the `except` handler's scope covers the CSV append and the
debug print.  A pair whose generation succeeded but whose append raises is
caught: the assistant line and then the error line are printed, no data
row is appended, and the loop continues — so a pair can generate
successfully yet leave no row.  A pair whose debug print raises after a
successful append is likewise caught, with its row already in the log. -/
theorem post_generation_exceptions_caught :
    (∀ env args cm i j f raw rest st d e,
      env.encodeResult i j = none →
      env.genResult i j = GenOutcome.success d →
      env.writeResult i j = some e →
      ∃ st', processPair env args cm i j f raw st = Except.ok st' ∧
        st'.csv = st.csv ∧
        st'.stdout = st.stdout ++
          [assistLine (env.roles cm).2 (strTrim d),
           errLine f (promptWithImageTokens env raw) e] ∧
        processPrompts env args cm i f (raw :: rest) j st =
          processPrompts env args cm i f rest (j + 1) st') ∧
    (∀ env args cm i j f raw rest st d e,
      env.encodeResult i j = none →
      env.genResult i j = GenOutcome.success d →
      env.writeResult i j = none →
      args.debug = true →
      env.debugResult i j = some e →
      ∃ st', processPair env args cm i j f raw st = Except.ok st' ∧
        dataRowsOf st'.csv = dataRowsOf st.csv ++
          [(args.model_path, args.model_base.getD "", f,
            promptWithImageTokens env raw, strTrim d)] ∧
        st'.stdout = st.stdout ++
          [assistLine (env.roles cm).2 (strTrim d),
           errLine f (promptWithImageTokens env raw) e] ∧
        processPrompts env args cm i f (raw :: rest) j st =
          processPrompts env args cm i f rest (j + 1) st') := by
  constructor
  · intro env args cm i j f raw rest st d e henc hgen hwr
    refine ⟨_, processPair_write_err env args cm i j f raw st d e henc hgen hwr, rfl, rfl, ?_⟩
    simp [processPrompts, processPair_write_err env args cm i j f raw st d e henc hgen hwr]
  · intro env args cm i j f raw rest st d e henc hgen hwr hdbg hdr
    refine ⟨_,
      processPair_success_debug_err env args cm i j f raw st d e henc hgen hwr hdbg hdr,
      ?_, rfl, ?_⟩
    · simp [dataRowsOf_write]
    · simp [processPrompts,
        processPair_success_debug_err env args cm i j f raw st d e henc hgen hwr hdbg hdr]

/-- Witness for C10: a caught append failure and a caught debug-print
failure at concrete inputs. -/
theorem post_generation_exceptions_caught_witness :
    (∃ st', processPair envWriteFails argsBase "llava_v0" 0 0 "img" "p" ⟨csvEmpty, [], []⟩ =
        Except.ok st' ∧
      st'.csv = (⟨csvEmpty, [], []⟩ : RunState).csv ∧
      st'.stdout = (⟨csvEmpty, [], []⟩ : RunState).stdout ++
        [assistLine (envWriteFails.roles "llava_v0").2 (strTrim "ok"),
         errLine "img" (promptWithImageTokens envWriteFails "p") "disk full"] ∧
      processPrompts envWriteFails argsBase "llava_v0" 0 "img" ["p"] 0 ⟨csvEmpty, [], []⟩ =
        processPrompts envWriteFails argsBase "llava_v0" 0 "img" [] (0 + 1) st') ∧
    (∃ st', processPair envDebugFails argsDebug "llava_v0" 0 0 "img" "p" ⟨csvEmpty, [], []⟩ =
        Except.ok st' ∧
      dataRowsOf st'.csv = dataRowsOf (⟨csvEmpty, [], []⟩ : RunState).csv ++
        [(argsDebug.model_path, argsDebug.model_base.getD "", "img",
          promptWithImageTokens envDebugFails "p", strTrim "ok")] ∧
      st'.stdout = (⟨csvEmpty, [], []⟩ : RunState).stdout ++
        [assistLine (envDebugFails.roles "llava_v0").2 (strTrim "ok"),
         errLine "img" (promptWithImageTokens envDebugFails "p") "dboom"] ∧
      processPrompts envDebugFails argsDebug "llava_v0" 0 "img" ["p"] 0 ⟨csvEmpty, [], []⟩ =
        processPrompts envDebugFails argsDebug "llava_v0" 0 "img" [] (0 + 1) st') :=
  ⟨post_generation_exceptions_caught.1 envWriteFails argsBase "llava_v0" 0 0 "img" "p" []
      ⟨csvEmpty, [], []⟩ "ok" "disk full" rfl rfl rfl,
   post_generation_exceptions_caught.2 envDebugFails argsDebug "llava_v0" 0 0 "img" "p" []
      ⟨csvEmpty, [], []⟩ "ok" "dboom" rfl rfl rfl rfl rfl⟩
